import Mathlib

/-!
Shallow embedding of the decision-bearing core of the `blurz` Bluetooth
library: the modalias string parser (`BluetoothAdapter::get_modalias`,
src/bluetooth_adapter.rs), the signal classifier (`BluetoothEvent::from`,
src/bluetooth_event.rs), and the `ConnectDevice` argument construction
(`BluetoothAdapter::connect_device`, src/bluetooth_adapter.rs).

Strings are modelled as `List Char`; all inputs of interest are ASCII, so
Rust's byte-indexed `str` slicing coincides with character indexing.
-/

/-! ## Modalias parser (src/bluetooth_adapter.rs, `get_modalias`) -/

/-- Outcome of the parsing portion of `get_modalias`.  Rust distinguishes a
returned `Err` (here `hexError`, produced by the `?` on `Vec::from_hex`)
from an aborting out-of-bounds index or slice (`oobAbort`), which is not
returned to the caller at all. -/
inductive ModaliasResult where
  | ok : String → Nat → Nat → Nat → ModaliasResult
  | hexError : ModaliasResult
  | oobAbort : ModaliasResult
deriving DecidableEq

/-- Rust `m.split(':').collect::<Vec<_>>()`: splits at every colon; the
result is always non-empty, and an input with no colon yields `[input]`. -/
def splitColon : List Char → List (List Char)
  | [] => [[]]
  | c :: rest =>
    if c = ':' then [] :: splitColon rest
    else
      match splitColon rest with
      | [] => [[c]]
      | h :: t => (c :: h) :: t

/-- Rust `&s[a..b]` on an ASCII string: the slice of characters at indices
`a..b`, or an abort (`none`) when `b` exceeds the length (with `a ≤ b`). -/
def sliceChars (cs : List Char) (a b : Nat) : Option (List Char) :=
  if b ≤ cs.length then some ((cs.drop a).take (b - a)) else none

/-- Value of one hexadecimal digit, case-insensitive (`hex` crate). -/
def hexNibble (c : Char) : Option Nat :=
  if '0' ≤ c ∧ c ≤ '9' then some (c.toNat - '0'.toNat)
  else if 'a' ≤ c ∧ c ≤ 'f' then some (c.toNat - 'a'.toNat + 10)
  else if 'A' ≤ c ∧ c ≤ 'F' then some (c.toNat - 'A'.toNat + 10)
  else none

/-- Rust `Vec::from_hex`: decodes pairs of hex digits into bytes; fails on
an odd-length input or any non-hex character. -/
def fromHex : List Char → Option (List Nat)
  | [] => some []
  | [_] => none
  | a :: b :: rest =>
    match hexNibble a, hexNibble b, fromHex rest with
    | some ha, some hb, some r => some ((ha * 16 + hb) :: r)
    | _, _, _ => none

/-- The parsing portion of `get_modalias` applied to the property string
`m`: split at colons, take the segment after the first colon, slice the
three 4-hex-digit fields at offsets 1..5, 6..10, 11..15, hex-decode each to
two bytes, and recombine as `byte0 * 16 * 16 + byte1`.  Missing colon or a
too-short segment indexes/slices out of bounds (`oobAbort`); non-hex field
content surfaces as the returned error (`hexError`). -/
def getModaliasParse (m : List Char) : ModaliasResult :=
  let ids := splitColon m
  let source : String := ⟨ids.headD []⟩
  match ids[1]? with
  | Option.none => .oobAbort
  | Option.some s1 =>
    match sliceChars s1 1 5 with
    | Option.none => .oobAbort
    | Option.some vs =>
      match fromHex vs with
      | Option.none => .hexError
      | Option.some vendor =>
        match sliceChars s1 6 10 with
        | Option.none => .oobAbort
        | Option.some ps =>
          match fromHex ps with
          | Option.none => .hexError
          | Option.some product =>
            match sliceChars s1 11 15 with
            | Option.none => .oobAbort
            | Option.some ds =>
              match fromHex ds with
              | Option.none => .hexError
              | Option.some device =>
                .ok source
                  (vendor.getD 0 0 * 16 * 16 + vendor.getD 1 0)
                  (product.getD 0 0 * 16 * 16 + product.getD 1 0)
                  (device.getD 0 0 * 16 * 16 + device.getD 1 0)

example : getModaliasParse "SOURCE:v1234p5678dABCD".data =
    ModaliasResult.ok "SOURCE" 4660 22136 43981 := by decide

example : getModaliasParse "bad-string".data = ModaliasResult.oobAbort := by decide

example : getModaliasParse "usb:v12".data = ModaliasResult.oobAbort := by decide

example : getModaliasParse "usb:vZZZZp0000d0000".data = ModaliasResult.hexError := by decide

/-! ## Event classifier (src/bluetooth_event.rs, `BluetoothEvent::from`) -/

/-- The dynamically-typed payload of a dbus `Variant<Box<dyn RefArg>>`,
restricted to a closed union of the payload kinds the library exchanges.
`cast::<T>` succeeds exactly when the tag matches `T`. -/
inductive Variant where
  | boolean : Bool → Variant
  | string : String → Variant
  | byteSeq : List Nat → Variant
  | int16 : Int → Variant
  | uint16 : Nat → Variant
  | uint32 : Nat → Variant
  | objectPath : String → Variant
deriving DecidableEq

/-- Rust `cast::<bool>(&value.0)`. -/
def castBool : Variant → Option Bool
  | .boolean b => some b
  | _ => none

/-- Rust `cast::<Vec<u8>>(&value.0)`. -/
def castBytes : Variant → Option (List Nat)
  | .byteSeq v => some v
  | _ => none

/-- Rust `cast::<i16>(&value.0)`. -/
def castInt16 : Variant → Option Int
  | .int16 i => some i
  | _ => none

/-- The property bag `HashMap<String, Variant<Box<dyn RefArg>>>`, as an
association list (keys unique in any bag delivered by the bus). -/
abbrev PropBag := List (String × Variant)

/-- `HashMap::get`: the value stored under key `k`. -/
def getProp (properties : PropBag) (k : String) : Option Variant :=
  (List.find? (fun q => decide (q.1 = k)) properties).map Prod.snd

/-- The domain event enum `BluetoothEvent`; `none` is the
`BluetoothEvent::None` variant (no recognized property). -/
inductive BluetoothEvent where
  | powered (object_path : String) (powered : Bool)
  | discovering (object_path : String) (discovering : Bool)
  | connected (object_path : String) (connected : Bool)
  | servicesResolved (object_path : String) (services_resolved : Bool)
  | value (object_path : String) (value : List Nat)
  | rssi (object_path : String) (rssi : Int)
  | none
deriving DecidableEq

/-- An incoming dbus `Message` as `BluetoothEvent::from` observes it:
`body` is the outcome of `read2::<(&str, HashMap<..>)>` (`Option.none`
models a `TypeMismatchError`), `path` is `conn_msg.path()`. -/
structure Message where
  body : Option (String × PropBag)
  path : Option String

/-- The cascade of `if let` blocks in `BluetoothEvent::from` (lines
42-108): each recognized name is tried in order; a present key whose cast
succeeds returns immediately, otherwise control falls through; the final
fallthrough is `Some(BluetoothEvent::None)`. -/
def classifyProps (object_path : String) (properties : PropBag) : BluetoothEvent :=
  match (getProp properties "Powered").bind castBool with
  | Option.some powered => .powered object_path powered
  | Option.none =>
  match (getProp properties "Discovering").bind castBool with
  | Option.some discovering => .discovering object_path discovering
  | Option.none =>
  match (getProp properties "Connected").bind castBool with
  | Option.some connected => .connected object_path connected
  | Option.none =>
  match (getProp properties "ServicesResolved").bind castBool with
  | Option.some services_resolved => .servicesResolved object_path services_resolved
  | Option.none =>
  match (getProp properties "Value").bind castBytes with
  | Option.some value => .value object_path value
  | Option.none =>
  match (getProp properties "RSSI").bind castInt16 with
  | Option.some rssi => .rssi object_path rssi
  | Option.none => .none

/-- `BluetoothEvent::from(conn_msg)`: a failed `read2` yields `None`; a
missing originating path (the `?` on `conn_msg.path()`) yields `None`; the
interface-name component of the body is read and discarded. -/
def BluetoothEvent.fromMessage (conn_msg : Message) : Option BluetoothEvent :=
  match conn_msg.body with
  | Option.some (_, properties) =>
    match conn_msg.path with
    | Option.some object_path => Option.some (classifyProps object_path properties)
    | Option.none => Option.none
  | Option.none => Option.none

/-! Spec-side ordered-dispatch formulation of the classifier, for the
refinement statement: the fixed priority list of recognized names, the
expected tag for each, and first-match semantics. -/

/-- Modelled from the spec: the fixed, ordered set of recognized property
names, in priority order. -/
def recognizedNames : List String :=
  ["Powered", "Discovering", "Connected", "ServicesResolved", "Value", "RSSI"]

/-- Modelled from the spec: the event a recognized name produces when its
payload carries the expected tag (Boolean for the four flags, ByteSequence
for Value, SignedInt16 for RSSI). -/
def eventFor (object_path : String) (name : String) (v : Variant) : Option BluetoothEvent :=
  if name = "Powered" then (castBool v).map (BluetoothEvent.powered object_path)
  else if name = "Discovering" then (castBool v).map (BluetoothEvent.discovering object_path)
  else if name = "Connected" then (castBool v).map (BluetoothEvent.connected object_path)
  else if name = "ServicesResolved" then (castBool v).map (BluetoothEvent.servicesResolved object_path)
  else if name = "Value" then (castBytes v).map (BluetoothEvent.value object_path)
  else if name = "RSSI" then (castInt16 v).map (BluetoothEvent.rssi object_path)
  else Option.none

/-- Modelled from the spec: walk the priority list; the first name present
in the bag with a matching tag determines the variant; otherwise the
no-recognized-property outcome. -/
def classifySpecOrdered (object_path : String) (properties : PropBag) : BluetoothEvent :=
  match recognizedNames.findSome?
      (fun n => (getProp properties n).bind (fun v => eventFor object_path n v)) with
  | Option.some e => e
  | Option.none => BluetoothEvent.none

/-- No recognized property name is present with a matching payload tag. -/
def noRecognizedMatch (properties : PropBag) : Prop :=
  (getProp properties "Powered").bind castBool = Option.none ∧
  (getProp properties "Discovering").bind castBool = Option.none ∧
  (getProp properties "Connected").bind castBool = Option.none ∧
  (getProp properties "ServicesResolved").bind castBool = Option.none ∧
  (getProp properties "Value").bind castBytes = Option.none ∧
  (getProp properties "RSSI").bind castInt16 = Option.none

instance (properties : PropBag) : Decidable (noRecognizedMatch properties) := by
  unfold noRecognizedMatch; infer_instance

example : BluetoothEvent.fromMessage
    ⟨Option.some ("org.freedesktop.DBus.Properties", [("Powered", Variant.boolean true)]),
      Option.some "/org/bluez/hci0"⟩ =
    Option.some (BluetoothEvent.powered "/org/bluez/hci0" true) := by decide

example : BluetoothEvent.fromMessage
    ⟨Option.some ("i", [("Powered", Variant.string "x"), ("Discovering", Variant.boolean false)]),
      Option.some "/p"⟩ =
    Option.some (BluetoothEvent.discovering "/p" false) := by decide

/-! ## ConnectDevice argument (src/bluetooth_adapter.rs, `connect_device`) -/

/-- The dbus `MessageItem` shapes `connect_device` builds. -/
inductive MessageItem where
  | str : String → MessageItem
  | variant : MessageItem → MessageItem
  | dict : List (String × MessageItem) → MessageItem

/-- The `AddressType` enum. -/
inductive AddressType where
  | Public
  | Random

/-- The dictionary argument `connect_device` passes to the `ConnectDevice`
method: the `match` on `address_type` serializes the enum to a literal
string, packed as a variant under the `"AddressType"` key next to the
`"Address"` entry. -/
def connectDeviceArgs (address : String) (address_type : AddressType) : MessageItem :=
  let ats := match address_type with
    | AddressType.Public => "public"
    | AddressType.Random => "random"
  .dict [("Address", .variant (.str address)), ("AddressType", .variant (.str ats))]

/-- Lookup of a key in a dict-shaped `MessageItem`. -/
def dictLookup (m : MessageItem) (k : String) : Option MessageItem :=
  match m with
  | .dict entries => (List.find? (fun q => decide (q.1 = k)) entries).map Prod.snd
  | _ => Option.none

example : dictLookup (connectDeviceArgs "AA:BB" AddressType.Public) "AddressType" =
    Option.some (MessageItem.variant (MessageItem.str "public")) := rfl

/-! ## Helper lemmas -/

theorem hexNibble_ne_colon {c : Char} {v : Nat} (h : hexNibble c = Option.some v) : c ≠ ':' := by
  intro he
  rw [he, show hexNibble ':' = Option.none from by decide] at h
  exact Option.noConfusion h

theorem splitColon_no_colon (l : List Char) (hl : ':' ∉ l) : splitColon l = [l] := by
  induction l with
  | nil => rfl
  | cons c cs ih =>
    have hc : ¬ c = ':' := fun h => hl (by simp [h])
    have hcs : ':' ∉ cs := fun h => hl (List.mem_cons_of_mem c h)
    simp [splitColon, hc, ih hcs]

theorem splitColon_append (src rest : List Char) (hsrc : ':' ∉ src) :
    splitColon (src ++ ':' :: rest) = src :: splitColon rest := by
  induction src with
  | nil => simp [splitColon]
  | cons c cs ih =>
    have hc : ¬ c = ':' := fun h => hsrc (by simp [h])
    have hcs : ':' ∉ cs := fun h => hsrc (List.mem_cons_of_mem c h)
    simp [splitColon, hc, ih hcs]

theorem findSome?_step_some {α : Type} (p : String) (props : PropBag) (n : String)
    (ns : List String) (cst : Variant → Option α) (g : α → BluetoothEvent) (b : α)
    (he : ∀ v, eventFor p n v = Option.map g (cst v))
    (h : (getProp props n).bind cst = Option.some b) :
    List.findSome? (fun m => (getProp props m).bind (fun v => eventFor p m v)) (n :: ns) =
      Option.some (g b) := by
  rcases hg : getProp props n with _ | v
  · simp [hg] at h
  · rw [hg, Option.some_bind] at h
    simp [List.findSome?_cons, hg, he v, h]

theorem findSome?_step_none {α : Type} (p : String) (props : PropBag) (n : String)
    (ns : List String) (cst : Variant → Option α) (g : α → BluetoothEvent)
    (he : ∀ v, eventFor p n v = Option.map g (cst v))
    (h : (getProp props n).bind cst = Option.none) :
    List.findSome? (fun m => (getProp props m).bind (fun v => eventFor p m v)) (n :: ns) =
      List.findSome? (fun m => (getProp props m).bind (fun v => eventFor p m v)) ns := by
  rcases hg : getProp props n with _ | v
  · simp [List.findSome?_cons, hg]
  · rw [hg, Option.some_bind] at h
    simp [List.findSome?_cons, hg, he v, h]

theorem classifyProps_eq_spec (p : String) (props : PropBag) :
    classifyProps p props = classifySpecOrdered p props := by
  unfold classifyProps classifySpecOrdered
  simp only [recognizedNames]
  rcases h1 : (getProp props "Powered").bind castBool with _ | b1
  · rw [findSome?_step_none p props "Powered" _ castBool (BluetoothEvent.powered p) (fun v => rfl) h1]
    rcases h2 : (getProp props "Discovering").bind castBool with _ | b2
    · rw [findSome?_step_none p props "Discovering" _ castBool (BluetoothEvent.discovering p) (fun v => rfl) h2]
      rcases h3 : (getProp props "Connected").bind castBool with _ | b3
      · rw [findSome?_step_none p props "Connected" _ castBool (BluetoothEvent.connected p) (fun v => rfl) h3]
        rcases h4 : (getProp props "ServicesResolved").bind castBool with _ | b4
        · rw [findSome?_step_none p props "ServicesResolved" _ castBool (BluetoothEvent.servicesResolved p) (fun v => rfl) h4]
          rcases h5 : (getProp props "Value").bind castBytes with _ | b5
          · rw [findSome?_step_none p props "Value" _ castBytes (BluetoothEvent.value p) (fun v => rfl) h5]
            rcases h6 : (getProp props "RSSI").bind castInt16 with _ | b6
            · rw [findSome?_step_none p props "RSSI" _ castInt16 (BluetoothEvent.rssi p) (fun v => rfl) h6,
                List.findSome?_nil]
            · rw [findSome?_step_some p props "RSSI" _ castInt16 (BluetoothEvent.rssi p) b6 (fun v => rfl) h6]
          · rw [findSome?_step_some p props "Value" _ castBytes (BluetoothEvent.value p) b5 (fun v => rfl) h5]
        · rw [findSome?_step_some p props "ServicesResolved" _ castBool (BluetoothEvent.servicesResolved p) b4 (fun v => rfl) h4]
      · rw [findSome?_step_some p props "Connected" _ castBool (BluetoothEvent.connected p) b3 (fun v => rfl) h3]
    · rw [findSome?_step_some p props "Discovering" _ castBool (BluetoothEvent.discovering p) b2 (fun v => rfl) h2]
  · rw [findSome?_step_some p props "Powered" _ castBool (BluetoothEvent.powered p) b1 (fun v => rfl) h1]

/-! ## Claim theorems -/

/-- C1: the claim says every string without a colon separator, or with a
post-colon segment too short for the fields at offsets 1..5, 6..10, 11..15,
makes the modalias parse fail with a returned `MalformedModalias` error and
never panic; the code instead panics (out-of-bounds index or slice) on
exactly those inputs — in particular on `"bad-string"` — and only non-hex
field content is returned as an error. -/
theorem modalias_malformed_is_abort :
    getModaliasParse "bad-string".data = ModaliasResult.oobAbort ∧
    getModaliasParse "usb:v12".data = ModaliasResult.oobAbort ∧
    getModaliasParse "usb:vXYZWp0000d0000".data = ModaliasResult.hexError :=
  ⟨by decide, by decide, by decide⟩

/-- C6: for every well-formed modalias string `<source>:v####p####d####`
with four hex digits per field, parsing returns the source tag and the
three 16-bit values, each reconstructed big-endian as
`high_byte * 256 + low_byte` from the two decoded bytes of its field. -/
theorem modalias_wellformed_roundtrip
    (src : List Char) (hsrc : ':' ∉ src)
    (a b c d e f g h i j k l : Char)
    (va vb vc vd ve vf vg vh vi vj vk vl : Nat)
    (ha : hexNibble a = Option.some va) (hb : hexNibble b = Option.some vb)
    (hc : hexNibble c = Option.some vc) (hd : hexNibble d = Option.some vd)
    (he : hexNibble e = Option.some ve) (hf : hexNibble f = Option.some vf)
    (hg : hexNibble g = Option.some vg) (hh : hexNibble h = Option.some vh)
    (hi : hexNibble i = Option.some vi) (hj : hexNibble j = Option.some vj)
    (hk : hexNibble k = Option.some vk) (hl : hexNibble l = Option.some vl) :
    getModaliasParse
      (src ++ ':' :: 'v' :: a :: b :: c :: d :: 'p' :: e :: f :: g :: h :: 'd' :: i :: j :: k :: l :: []) =
      ModaliasResult.ok ⟨src⟩
        ((va * 16 + vb) * 256 + (vc * 16 + vd))
        ((ve * 16 + vf) * 256 + (vg * 16 + vh))
        ((vi * 16 + vj) * 256 + (vk * 16 + vl)) := by
  have hrest : ':' ∉ ('v' :: a :: b :: c :: d :: 'p' :: e :: f :: g :: h :: 'd' :: i :: j :: k :: l :: []) := by
    simp only [List.mem_cons, List.not_mem_nil, or_false]
    push_neg
    exact ⟨by decide, (hexNibble_ne_colon ha).symm, (hexNibble_ne_colon hb).symm,
      (hexNibble_ne_colon hc).symm, (hexNibble_ne_colon hd).symm, by decide,
      (hexNibble_ne_colon he).symm, (hexNibble_ne_colon hf).symm,
      (hexNibble_ne_colon hg).symm, (hexNibble_ne_colon hh).symm, by decide,
      (hexNibble_ne_colon hi).symm, (hexNibble_ne_colon hj).symm,
      (hexNibble_ne_colon hk).symm, (hexNibble_ne_colon hl).symm⟩
  unfold getModaliasParse
  rw [splitColon_append _ _ hsrc, splitColon_no_colon _ hrest]
  simp [sliceChars, fromHex, ha, hb, hc, hd, he, hf, hg, hh, hi, hj, hk, hl]
  omega

/-- Witness for C6 at the spec's own example. -/
theorem modalias_wellformed_roundtrip_witness :
    getModaliasParse "SOURCE:v1234p5678dABCD".data =
      ModaliasResult.ok "SOURCE" 4660 22136 43981 := by
  have hres := modalias_wellformed_roundtrip "SOURCE".data (by decide)
    '1' '2' '3' '4' '5' '6' '7' '8' 'A' 'B' 'C' 'D'
    1 2 3 4 5 6 7 8 10 11 12 13
    (by decide) (by decide) (by decide) (by decide) (by decide) (by decide)
    (by decide) (by decide) (by decide) (by decide) (by decide) (by decide)
  exact hres

/-- C7: the modalias parse is a pure deterministic function of its input
string: two invocations on equal strings yield identical results. -/
theorem modalias_parse_deterministic (s t : List Char) (h : s = t) :
    getModaliasParse s = getModaliasParse t := by rw [h]

/-- Witness for C7. -/
theorem modalias_parse_deterministic_witness :
    getModaliasParse "usb:v1D6Bp0246d0537".data = getModaliasParse "usb:v1D6Bp0246d0537".data :=
  modalias_parse_deterministic _ _ rfl

/-- C2: classification examines the recognized names in the fixed priority
order Powered, Discovering, Connected, ServicesResolved, Value, RSSI; the
first name present with a matching tag determines the emitted variant, and
all other keys are ignored; in particular a bag with both
`Powered: Boolean(true)` and `Discovering: Boolean(true)` classifies as the
Powered event, never the Discovering event. -/
theorem classifier_priority_order :
    (∀ (iface p : String) (props : PropBag),
      BluetoothEvent.fromMessage ⟨Option.some (iface, props), Option.some p⟩ =
        Option.some (classifySpecOrdered p props)) ∧
    (∀ (iface p : String),
      BluetoothEvent.fromMessage
        ⟨Option.some (iface,
            [("Powered", Variant.boolean true), ("Discovering", Variant.boolean true)]),
          Option.some p⟩ = Option.some (BluetoothEvent.powered p true)) := by
  constructor
  · intro iface p props
    show Option.some (classifyProps p props) = Option.some (classifySpecOrdered p props)
    rw [classifyProps_eq_spec]
  · intro iface p
    rfl

/-- C3: a recognized name whose payload tag does not match is skipped and
classification continues with the next name in priority order; in
particular a bag with a mis-tagged `Powered` followed by
`Discovering: Boolean(b)` classifies as the Discovering event carrying
`b`, whatever else the bag holds. -/
theorem classifier_tag_mismatch_skips
    (iface p : String) (v : Variant) (b : Bool) (props : PropBag)
    (hv : castBool v = Option.none) :
    BluetoothEvent.fromMessage
      ⟨Option.some (iface, ("Powered", v) :: ("Discovering", Variant.boolean b) :: props),
        Option.some p⟩ = Option.some (BluetoothEvent.discovering p b) := by
  show Option.some (classifyProps p _) = _
  cases v <;> try rfl
  simp [castBool] at hv

/-- Witness for C3 at the spec's own example. -/
theorem classifier_tag_mismatch_skips_witness :
    BluetoothEvent.fromMessage
      ⟨Option.some ("org.bluez.Adapter1",
          [("Powered", Variant.string "x"), ("Discovering", Variant.boolean false)]),
        Option.some "/org/bluez/hci0"⟩ =
      Option.some (BluetoothEvent.discovering "/org/bluez/hci0" false) :=
  classifier_tag_mismatch_skips "org.bluez.Adapter1" "/org/bluez/hci0"
    (Variant.string "x") false [] (by decide)

/-- C4: a bag holding exactly `Powered: Boolean(b)` classifies as the
Powered event carrying `b`, for both booleans, and the emitted object path
is the signal's own originating path. -/
theorem classifier_powered_singleton :
    ∀ (b : Bool) (iface p : String),
      BluetoothEvent.fromMessage
        ⟨Option.some (iface, [("Powered", Variant.boolean b)]), Option.some p⟩ =
        Option.some (BluetoothEvent.powered p b) := by
  intro b iface p
  rfl

/-- C5: a decodable signal with a path whose bag has no recognized name
with a matching tag classifies as the `BluetoothEvent::None` outcome
(`Option.some BluetoothEvent.none`), while a signal whose body does not
decode yields no event at all (`Option.none`); the two outcomes are
distinct values, so the caller can tell them apart. -/
theorem classifier_no_recognized_vs_structural :
    (∀ (iface p : String) (props : PropBag), noRecognizedMatch props →
      BluetoothEvent.fromMessage ⟨Option.some (iface, props), Option.some p⟩ =
        Option.some BluetoothEvent.none) ∧
    (∀ path, BluetoothEvent.fromMessage ⟨Option.none, path⟩ = Option.none) ∧
    Option.some BluetoothEvent.none ≠ (Option.none : Option BluetoothEvent) := by
  refine ⟨?_, fun path => rfl, by simp⟩
  rintro iface p props ⟨h1, h2, h3, h4, h5, h6⟩
  show Option.some (classifyProps p props) = _
  simp [classifyProps, h1, h2, h3, h4, h5, h6]

/-- Witness for C5 on a bag holding only an unrecognized key. -/
theorem classifier_no_recognized_vs_structural_witness :
    BluetoothEvent.fromMessage
      ⟨Option.some ("org.bluez.Adapter1", [("Unknown", Variant.boolean true)]),
        Option.some "/org/bluez/hci0"⟩ = Option.some BluetoothEvent.none :=
  classifier_no_recognized_vs_structural.1 "org.bluez.Adapter1" "/org/bluez/hci0"
    [("Unknown", Variant.boolean true)] (by decide)

/-- C9: a signal that decodes into (interface, bag) but carries no
originating path produces no event at all — the same outcome as a
structural mismatch — and every emitted event presupposes a present path. -/
theorem classifier_requires_path :
    (∀ (iface : String) (props : PropBag),
      BluetoothEvent.fromMessage ⟨Option.some (iface, props), Option.none⟩ = Option.none) ∧
    (∀ (msg : Message) (e : BluetoothEvent),
      BluetoothEvent.fromMessage msg = Option.some e → ∃ p, msg.path = Option.some p) := by
  constructor
  · intro iface props
    rfl
  · rintro ⟨body, path⟩ e h
    rcases body with _ | ⟨iface, props⟩
    · exact absurd h (by simp [BluetoothEvent.fromMessage])
    · rcases path with _ | p
      · exact absurd h (by simp [BluetoothEvent.fromMessage])
      · exact ⟨p, rfl⟩

/-- Witness for C9: a concrete emitted event comes from a message with a
present path. -/
theorem classifier_requires_path_witness :
    ∃ p, (Message.mk (Option.some ("org.bluez.Adapter1", ([] : PropBag)))
      (Option.some "/org/bluez/hci0")).path = Option.some p :=
  classifier_requires_path.2
    ⟨Option.some ("org.bluez.Adapter1", ([] : PropBag)), Option.some "/org/bluez/hci0"⟩
    BluetoothEvent.none (by decide)

/-- C10: classification never depends on the interface-name string: two
signals differing only in their interface name, with equal bags and equal
paths, classify identically. -/
theorem classifier_interface_independent :
    ∀ (iface1 iface2 : String) (props : PropBag) (path : Option String),
      BluetoothEvent.fromMessage ⟨Option.some (iface1, props), path⟩ =
        BluetoothEvent.fromMessage ⟨Option.some (iface2, props), path⟩ := by
  intro iface1 iface2 props path
  rfl

/-- C8: the `ConnectDevice` argument serializes the address type exactly as
the literal lowercase strings: `"public"` for `Public`, `"random"` for
`Random`, and no other string is ever placed under the `"AddressType"`
key. -/
theorem connect_device_address_type_literal :
    (∀ address, dictLookup (connectDeviceArgs address AddressType.Public) "AddressType" =
      Option.some (MessageItem.variant (MessageItem.str "public"))) ∧
    (∀ address, dictLookup (connectDeviceArgs address AddressType.Random) "AddressType" =
      Option.some (MessageItem.variant (MessageItem.str "random"))) ∧
    (∀ address t, dictLookup (connectDeviceArgs address t) "AddressType" =
        Option.some (MessageItem.variant (MessageItem.str "public")) ∨
      dictLookup (connectDeviceArgs address t) "AddressType" =
        Option.some (MessageItem.variant (MessageItem.str "random"))) := by
  refine ⟨fun address => rfl, fun address => rfl, fun address t => ?_⟩
  cases t
  · exact Or.inl rfl
  · exact Or.inr rfl
